import Mathlib

/-!
Shallow embedding of plugins/search-react/src/components/SearchBar/SearchBar.tsx.

The component under study is SearchBarBase together with the two wrappers
SearchBarInput and SearchBarAutocomplete. SearchBarBase keeps a local string
state (useState), mirrors changes of the externally supplied value prop into
that state (useEffect on the prop), and emits the local value through the
onChange callback after a debounce delay (useDebounce with deps on the local
value). We model the component as an explicit event-step machine:

* strings that can be undefined in the TypeScript code are Option String
  (none is undefined); note that useState(defaultValue as string) is a
  type-level cast only, so an absent value prop really leaves the local
  state undefined at runtime;
* the debounce timer of useDebounce is a pending deadline in milliseconds;
  it is armed at mount and re-armed whenever the local value changes
  (the deps of useDebounce are exactly the local value), and when it fires
  it calls onChange with the local value current at that moment (react-use
  keeps the latest callback in a ref);
* outward effects (onChange, onSubmit, onKeyDown forwarding, onClear) are
  reified as a list of Call values returned by each step.
-/

namespace SearchBar

/-- Behavioural configuration of SearchBarBase: the debounceTime prop
(default 200) and whether the optional onSubmit and onKeyDown callbacks
were supplied by the caller. -/
structure Config where
  debounceTime : Nat
  hasOnSubmit : Bool
  hasOnKeyDown : Bool
  deriving DecidableEq, Repr

/-- Outward callback invocations performed by SearchBarBase. The onChange
payload is Option String because the debounce effect emits the local state,
which is undefined when no value prop was ever supplied. The onClear
constructor exists because the props type declares an onClear callback;
whether any step ever emits it is a theorem, not an assumption. -/
inductive Call where
  | onChange (v : Option String)
  | onSubmit
  | onKeyDown (key : String)
  | onClear
  deriving DecidableEq, Repr

/-- Render-relevant state of SearchBarBase: the local useState value, the
previously observed value prop (what the useEffect dependency array last
saw), and the remaining milliseconds of the pending debounce timer, none
when no emission is pending. -/
structure State where
  value : Option String
  prevDefault : Option String
  pending : Option Nat
  deriving DecidableEq, Repr

/-- Events driving SearchBarBase: a keystroke edit committing text s (the
DOM input change handler), the passage of n milliseconds, a click on the
clear adornment, a keydown with a given key, and a change of the externally
supplied value prop. -/
inductive Event where
  | edit (s : String)
  | tick (n : Nat)
  | clear
  | keydown (key : String)
  | setExternal (v : Option String)
  deriving DecidableEq, Repr

/-- Mount state of SearchBarBase: useState is seeded with the value prop as
given (no runtime defaulting), the prop is recorded as observed, and
useDebounce arms its timer at mount. -/
def initState (cfg : Config) (defaultValue : Option String) : State :=
  { value := defaultValue, prevDefault := defaultValue,
    pending := some cfg.debounceTime }

/-- One event step of SearchBarBase, returning the successor state and the
list of outward callback invocations the event produced.

* edit: handleChange calls setValue with the new text; a value change
  re-renders and resets the useDebounce timer (its deps are the value),
  while an identical value is a React state bailout that changes nothing.
* tick: if the pending timer expires within the elapsed time, useDebounce
  fires onChange with the current local value and goes idle; otherwise the
  remaining delay shrinks.
* clear: handleClear invokes onChange with the empty string, and nothing
  else: it does not touch the local state, the timer, or onClear.
* keydown: handleKeyDown forwards to onKeyDown when supplied, and invokes
  onSubmit when supplied and the key is Enter; state is untouched.
* setExternal: the useEffect keyed on the value prop runs only when the
  prop differs from the one previously observed; it then resets the local
  value to the prop unless they already agree (the functional update
  returns the previous value in that case, so no re-render and no timer
  reset happens). -/
def step (cfg : Config) (s : State) : Event → State × List Call
  | .edit t =>
      if some t = s.value then (s, [])
      else ({ s with value := some t, pending := some cfg.debounceTime }, [])
  | .tick n =>
      match s.pending with
      | none => (s, [])
      | some d =>
          if d ≤ n then ({ s with pending := none }, [Call.onChange s.value])
          else ({ s with pending := some (d - n) }, [])
  | .clear => (s, [Call.onChange (some "")])
  | .keydown k =>
      (s, (if cfg.hasOnKeyDown then [Call.onKeyDown k] else [])
            ++ (if cfg.hasOnSubmit && k == "Enter" then [Call.onSubmit] else []))
  | .setExternal v =>
      if v = s.prevDefault then (s, [])
      else if v = s.value then ({ s with prevDefault := v }, [])
      else
        ({ s with
            prevDefault := v
            value := v
            pending := some cfg.debounceTime }, [])

/-- JavaScript truthiness of an optional string: undefined and the empty
string are falsy, every other string is truthy. -/
def jsTruthyString : Option String → Bool
  | some t => t ≠ ""
  | none => false

/-- JavaScript a or-else b for an optional string a: b when a is undefined
or empty, otherwise the string itself. -/
def jsOrString (a : Option String) (b : String) : String :=
  if jsTruthyString a then a.getD b else b

/-- Placeholder computed by SearchBarBase from the app config lookup of
app.title: the string Search in followed by the title, falling back to
Backstage when the lookup is undefined or empty. -/
def getPlaceholder (appTitle : Option String) : String :=
  "Search in " ++ jsOrString appTitle "Backstage"

/-- New shared-context term after the useSearchBarState effect runs with a
given defaultValue and current term: setTerm(String(defaultValue)) is
called only when defaultValue is truthy, otherwise the term is untouched. -/
def useSearchBarStateEffect (defaultValue : Option String) (term : String) :
    String :=
  if jsTruthyString defaultValue then defaultValue.getD term else term

/-- Effects a committed value can be routed to by the wrapper components. -/
inductive InputEffect where
  | callerOnChange (v : String)
  | contextSetTerm (v : String)
  deriving DecidableEq, Repr

/-- SearchBarInput handleChange: a committed value goes to the caller
onChange when one was supplied, otherwise into the shared-context setter. -/
def searchBarInputHandleChange (hasOnChange : Bool) (newValue : String) :
    InputEffect :=
  if hasOnChange then .callerOnChange newValue else .contextSetTerm newValue

/-- SearchBarAutocomplete handleInputChange: identical routing for the
onChange taken out of inputProps. -/
def searchBarAutocompleteHandleInputChange (hasOnChange : Bool)
    (newValue : String) : InputEffect :=
  if hasOnChange then .callerOnChange newValue else .contextSetTerm newValue

/-- Shared-context writes SearchBarInput performs at mount through the
useSearchBarState effect, as a function of whether the caller supplied an
onChange. The code never consults onChange on this path, which is why the
first argument is ignored: a truthy default value is always written. -/
def searchBarInputMountContextWrites (_hasOnChange : Bool)
    (defaultValue : Option String) : List String :=
  if jsTruthyString defaultValue then [defaultValue.getD ""] else []

/-- Runtime defaulting of the SearchBarInput value prop: the destructuring
default turns an absent value into the empty string. -/
def searchBarInputDefaultValue (value : Option String) : String :=
  value.getD ""

/-- Running a list of events from a state, collecting every outward call in
order. -/
def run (cfg : Config) (s : State) : List Event → State × List Call
  | [] => (s, [])
  | e :: es =>
      ((run cfg (step cfg s e).1 es).1,
        (step cfg s e).2 ++ (run cfg (step cfg s e).1 es).2)

/-- C1: after a keystroke edit commits final text T, a quiet period of at
least debounceTime makes onChange fire exactly once over the whole trace,
with exactly T, and further quiet time produces no further call; the edit
itself arms a fresh full debounce window on the most recent local value. -/
theorem debounce_emits_final_value_once (cfg : Config) (s : State)
    (T : String) (n m : Nat) (hne : some T ≠ s.value)
    (hn : cfg.debounceTime ≤ n) :
    (run cfg s [.edit T, .tick n, .tick m]).2 = [Call.onChange (some T)] ∧
    (step cfg s (.edit T)).1.value = some T ∧
    (step cfg s (.edit T)).1.pending = some cfg.debounceTime := by
  simp [run, step, hne, hn]

/-- Witness for C1: typing cat from the mount state and staying quiet for
200 ms delivers onChange cat exactly once. -/
theorem debounce_emits_final_value_once_check :
    (run { debounceTime := 200, hasOnSubmit := false, hasOnKeyDown := false }
        (initState
          { debounceTime := 200, hasOnSubmit := false, hasOnKeyDown := false }
          none)
        [.edit "cat", .tick 200, .tick 500]).2
      = [Call.onChange (some "cat")] :=
  (debounce_emits_final_value_once _ _ "cat" 200 500 (by decide)
    (by decide)).1

/-- C2: when a second edit lands before the debounce window of the first
expires, the whole trace delivers only the later value: the earlier value
is never passed to onChange, and the second edit re-arms a full window. -/
theorem rapid_edits_supersede (cfg : Config) (s : State) (a b : String)
    (m n : Nat) (ha : some a ≠ s.value) (hb : b ≠ a)
    (hm : m < cfg.debounceTime) (hn : cfg.debounceTime ≤ n) :
    (run cfg s [.edit a, .tick m, .edit b, .tick n]).2
      = [Call.onChange (some b)] ∧
    Call.onChange (some a) ∉ (run cfg s [.edit a, .tick m, .edit b, .tick n]).2 ∧
    (step cfg (step cfg (step cfg s (.edit a)).1 (.tick m)).1
        (.edit b)).1.pending = some cfg.debounceTime := by
  have hm' : ¬ cfg.debounceTime ≤ m := Nat.not_le.mpr hm
  have hb' : ¬ a = b := fun e => hb e.symm
  simp [run, step, ha, hb, hb', hm', hn]

/-- Witness for C2: typing ca then cat 50 ms apart delivers only cat. -/
theorem rapid_edits_supersede_check :
    (run { debounceTime := 200, hasOnSubmit := false, hasOnKeyDown := false }
        (initState
          { debounceTime := 200, hasOnSubmit := false, hasOnKeyDown := false }
          none)
        [.edit "ca", .tick 50, .edit "cat", .tick 200]).2
      = [Call.onChange (some "cat")] :=
  (rapid_edits_supersede _ _ "ca" "cat" 50 200 (by decide) (by decide)
    (by decide) (by decide)).1

/-- C3 counterexample: clicking clear while the local value is abc leaves
the local displayed value at abc, not the empty string, refuting the part
of the claim that says clear immediately sets the local displayed value. -/
theorem clear_keeps_local_value :
    (step { debounceTime := 200, hasOnSubmit := false, hasOnKeyDown := false }
        { value := some "abc", prevDefault := none, pending := some 200 }
        Event.clear).1.value ≠ some "" := by
  decide

/-- C3 amended: clicking clear synchronously invokes onChange with the
empty string, bypassing the debounce window, but leaves the whole local
state, the displayed value included, unchanged: the display resets only
indirectly, if the caller feeds the empty value back through the value
prop. -/
theorem clear_emits_empty_synchronously (cfg : Config) (s : State) :
    step cfg s Event.clear = (s, [Call.onChange (some "")]) :=
  rfl

/-- C4: whenever the value prop changes to something different from the
previously observed prop, the local displayed value is reset to the new
external value on the next render, overriding any in-progress local edit;
the wrappers route the shared-context term into this same prop. -/
theorem external_change_overrides_local (cfg : Config) (s : State)
    (v : Option String) (h : v ≠ s.prevDefault) :
    (step cfg s (.setExternal v)).1.value = v ∧
    (step cfg s (.setExternal v)).1.prevDefault = v := by
  by_cases hv : v = s.value
  · subst hv
    simp [step, h]
  · simp [step, h, hv]

/-- Witness for C4: an external reset to new overrides the draft edit. -/
theorem external_change_overrides_local_check :
    (step { debounceTime := 200, hasOnSubmit := false, hasOnKeyDown := false }
        { value := some "draft", prevDefault := some "old", pending := some 75 }
        (.setExternal (some "new"))).1.value = some "new" :=
  (external_change_overrides_local _ _ (some "new") (by decide)).1

/-- C5 counterexample: with a caller onChange supplied, mounting
SearchBarInput with the truthy value a still writes a into the shared
context through the useSearchBarState effect, refuting the part of the
claim that says the context term is never written when onChange is
supplied. -/
theorem context_written_despite_onchange :
    searchBarInputMountContextWrites true (some "a") ≠ [] := by
  decide

/-- C5 amended: on the change path the caller-supplied onChange takes
precedence: every committed value goes to it and none is written into the
context setter, which is used only when no caller callback exists; the
separate default-value effect still writes a truthy value prop into the
context regardless of onChange. -/
theorem caller_onchange_precedence (v : String) :
    searchBarInputHandleChange true v = InputEffect.callerOnChange v ∧
    searchBarInputHandleChange false v = InputEffect.contextSetTerm v ∧
    searchBarAutocompleteHandleInputChange true v
      = InputEffect.callerOnChange v ∧
    searchBarAutocompleteHandleInputChange false v
      = InputEffect.contextSetTerm v := by
  simp [searchBarInputHandleChange, searchBarAutocompleteHandleInputChange]

/-- C6: a keydown of Enter invokes onSubmit synchronously within the event
step when it was supplied, leaving the state, the pending debounce timer
included, untouched; without onSubmit the key causes no submit call. -/
theorem enter_invokes_onsubmit (cfg : Config) (s : State)
    (hs : cfg.hasOnSubmit = true) :
    (step cfg s (.keydown "Enter")).1 = s ∧
    Call.onSubmit ∈ (step cfg s (.keydown "Enter")).2 ∧
    ∀ cfg2 : Config, cfg2.hasOnSubmit = false →
      Call.onSubmit ∉ (step cfg2 s (.keydown "Enter")).2 := by
  refine ⟨rfl, ?_, ?_⟩
  · simp [step, hs]
  · intro cfg2 h2
    simp [step, h2]

/-- Witness for C6: Enter with text abc pending submits immediately. -/
theorem enter_invokes_onsubmit_check :
    Call.onSubmit ∈
      (step { debounceTime := 200, hasOnSubmit := true, hasOnKeyDown := false }
        { value := some "abc", prevDefault := none, pending := some 120 }
        (.keydown "Enter")).2 :=
  (enter_invokes_onsubmit
    { debounceTime := 200, hasOnSubmit := true, hasOnKeyDown := false }
    { value := some "abc", prevDefault := none, pending := some 120 }
    rfl).2.1

/-- C7: the clear handler never invokes the declared onClear callback in
any state; it only emits onChange with the empty string, although the
props type recognizes onClear as a clear-invoked callback. -/
theorem clear_never_invokes_onclear (cfg : Config) (s : State) :
    Call.onClear ∉ (step cfg s Event.clear).2 := by
  simp [step]

/-- C8 counterexample: SearchBarBase mounted without a value prop has an
undefined local value, not the empty string: the cast in the useState call
performs no runtime defaulting. -/
theorem base_absent_value_not_empty :
    (initState
        { debounceTime := 200, hasOnSubmit := false, hasOnKeyDown := false }
        none).value ≠ some "" := by
  decide

/-- C8 amended: SearchBarInput defaults an absent value prop to the empty
string through its destructuring default, while SearchBarBase keeps an
absent value prop as undefined local state; unsupplied optional callbacks
cause no action rather than an error: with neither onKeyDown nor onSubmit
supplied, a keydown emits no call and changes nothing. -/
theorem absent_values_and_callbacks (s : State) (k : String) :
    searchBarInputDefaultValue none = "" ∧
    (initState
        { debounceTime := 200, hasOnSubmit := false, hasOnKeyDown := false }
        none).value = none ∧
    step { debounceTime := 200, hasOnSubmit := false, hasOnKeyDown := false }
        s (.keydown k) = (s, []) := by
  refine ⟨rfl, rfl, ?_⟩
  simp [step]

/-- C9: the placeholder is built from the single optional app config title
lookup, and for every non-empty title t it equals Search in followed by t. -/
theorem placeholder_from_title (t : String) (h : t ≠ "") :
    getPlaceholder (some t) = "Search in " ++ t := by
  simp [getPlaceholder, jsOrString, jsTruthyString, h]

/-- Witness for C9: a title of Acme yields Search in Acme. -/
theorem placeholder_from_title_check :
    getPlaceholder (some "Acme") = "Search in " ++ "Acme" :=
  placeholder_from_title "Acme" (by decide)

/-- C10: the useSearchBarState effect writes the default value into the
shared context only when it is truthy: an undefined or empty default
leaves the term unchanged, while a non-empty default replaces it. -/
theorem default_written_only_when_truthy (t term : String) (h : t ≠ "") :
    useSearchBarStateEffect none term = term ∧
    useSearchBarStateEffect (some "") term = term ∧
    useSearchBarStateEffect (some t) term = t := by
  simp [useSearchBarStateEffect, jsTruthyString, h]

/-- Witness for C10: a dogs default overwrites the cats term, while
undefined and empty defaults leave it alone. -/
theorem default_written_only_when_truthy_check :
    useSearchBarStateEffect none "cats" = "cats" ∧
    useSearchBarStateEffect (some "") "cats" = "cats" ∧
    useSearchBarStateEffect (some "dogs") "cats" = "dogs" :=
  default_written_only_when_truthy "dogs" "cats" (by decide)

end SearchBar
